import Mathlib

/-
Verification of the lucky-draw redemption service (src/server.js).

The service exposes two POST handlers over a Firestore document store:
  * /check-order-number  — validates an order number via a field-equality
    query over the orderNumbers collection;
  * /record-draw-result  — looks the order up by document key, marks it
    played, and writes a drawResults document.

The store is embedded as association lists of (document key, data) pairs;
a Firestore field-equality query is a filter over the collection in
collection order, and docs[0] is the head of the result.  Handlers are
pure functions from the request body and store to a response, the new
store, and the trace of store accesses they performed.
-/

namespace LuckyDraw

/-- A JSON request-body value, as far as the handlers inspect one:
JavaScript truthiness is all the validation code uses. -/
inductive JSValue where
  | str (s : String)
  | num (n : Int)
  | bool (b : Bool)
  | null
deriving DecidableEq, Repr

/-- JavaScript truthiness of a value: empty string, 0, false and null are
falsy. -/
def JSValue.truthy : JSValue → Bool
  | .str s => s != ""
  | .num n => n != 0
  | .bool b => b
  | .null => false

/-- Truthiness of a possibly-missing string field (`!orderNumber` in the
handlers): a missing field is undefined, hence falsy, and so is "". -/
def strOptTruthy : Option String → Bool
  | none => false
  | some s => s != ""

/-- Truthiness of a possibly-missing value field (`!drawResult`). -/
def jsOptTruthy : Option JSValue → Bool
  | none => false
  | some v => v.truthy

/-- An orderNumbers document: the orderNumber field (stored as data, not
only as the document key), the hasPlayed flag, and the drawResult written
on redemption. -/
structure OrderData where
  orderNumber : String
  hasPlayed : Bool
  drawResult : Option JSValue
deriving DecidableEq, Repr

/-- A drawResults document: orderNumber, drawResult, and the
server-assigned timestamp. -/
structure DrawResultData where
  orderNumber : String
  drawResult : JSValue
  timestamp : Nat
deriving DecidableEq, Repr

/-- The Firestore state the service touches: the orderNumbers and
drawResults collections, each a list of (document key, data) pairs in
collection order. -/
structure Store where
  orderNumbers : List (String × OrderData)
  drawResults : List (String × DrawResultData)
deriving DecidableEq, Repr

/-- Direct key-addressed document read:
`db.collection(c).doc(k).get()` — the data of the first document whose
key is k, if any. -/
def lookupDoc {α : Type} : List (String × α) → String → Option α
  | [], _ => none
  | p :: t, k => if p.1 == k then some p.2 else lookupDoc t k

/-- The field-equality query of /check-order-number:
`.where('orderNumber', '==', o).get()` — every document whose
orderNumber field equals o, in collection order. -/
def queryByOrderNumber (l : List (String × OrderData)) (o : String) :
    List (String × OrderData) :=
  l.filter (fun p => p.2.orderNumber == o)

/-- `docRef.update({hasPlayed: true, drawResult: r})`: merge the two
fields into the document at key k, leaving its other fields alone. -/
def updateOrderDoc (l : List (String × OrderData)) (k : String) (r : JSValue) :
    List (String × OrderData) :=
  l.map (fun p =>
    if p.1 == k then (p.1, { p.2 with hasPlayed := true, drawResult := some r }) else p)

/-- `docRef.set(d)`: keyed overwrite — afterwards exactly one document
with key k exists and it holds d. -/
def setDoc {α : Type} (l : List (String × α)) (k : String) (d : α) :
    List (String × α) :=
  (k, d) :: l.filter (fun p => !(p.1 == k))

/-- One store access performed by a handler, for stating frame
properties (which reads and writes a request performs). -/
inductive Access where
  | queryOrders (field : String)
  | getOrder (key : String)
  | updateOrder (key : String)
  | setDrawResult (key : String)
deriving DecidableEq, Repr

/-- An HTTP JSON response: status code, the success flag, and the
message or error string of the body. -/
structure Response where
  status : Nat
  success : Bool
  message : String
deriving DecidableEq, Repr

/-- Body of POST /check-order-number. -/
structure CheckBody where
  orderNumber : Option String
deriving DecidableEq, Repr

/-- Body of POST /record-draw-result. -/
structure RecordBody where
  orderNumber : Option String
  drawResult : Option JSValue
deriving DecidableEq, Repr

/-- What a handler produced: the response, the store afterwards, and the
trace of store accesses it made. -/
structure HResult where
  response : Response
  store : Store
  accesses : List Access
deriving DecidableEq, Repr

/-- The POST /check-order-number handler: reject a falsy orderNumber,
query the collection by the orderNumber field, 404 on an empty result,
else decide from the first returned document's hasPlayed flag.  It never
writes. -/
def checkOrderNumber (s : Store) (body : CheckBody) : HResult :=
  if !strOptTruthy body.orderNumber then
    ⟨⟨400, false, "Order number is required."⟩, s, []⟩
  else
    let o := body.orderNumber.getD ""
    match queryByOrderNumber s.orderNumbers o with
    | [] =>
        ⟨⟨404, false, "Please input a qualified order number. Contact your sales representative for more information."⟩,
         s, [.queryOrders o]⟩
    | d :: _ =>
        if d.2.hasPlayed then
          ⟨⟨400, false, "You have used your chance."⟩, s, [.queryOrders o]⟩
        else
          ⟨⟨200, true, "Order number is valid. Proceed with the draw."⟩, s, [.queryOrders o]⟩

/-- The POST /record-draw-result handler: reject falsy fields, direct
key lookup of the order document, 404 if absent, 400 if already played,
else update the order document and set the drawResults document keyed by
the order number with the server timestamp `now`. -/
def recordDrawResult (s : Store) (body : RecordBody) (now : Nat) : HResult :=
  if !strOptTruthy body.orderNumber || !jsOptTruthy body.drawResult then
    ⟨⟨400, false, "Order number and draw result are required."⟩, s, []⟩
  else
    let o := body.orderNumber.getD ""
    let r := body.drawResult.getD .null
    match lookupDoc s.orderNumbers o with
    | none => ⟨⟨404, false, "Order number does not exist."⟩, s, [.getOrder o]⟩
    | some d =>
        if d.hasPlayed then
          ⟨⟨400, false, "You have already used your chance."⟩, s, [.getOrder o]⟩
        else
          ⟨⟨200, true, "Draw result recorded successfully."⟩,
           ⟨updateOrderDoc s.orderNumbers o r, setDoc s.drawResults o ⟨o, r, now⟩⟩,
           [.getOrder o, .updateOrder o, .setDrawResult o]⟩

/-- Which of the three awaited store operations of record succeed; a
failing one throws, is caught by the handler's try/catch, and yields a
500 response, but writes already awaited stay committed (Firestore has
no transaction here). -/
structure StoreFailure where
  getOk : Bool
  updateOk : Bool
  setOk : Bool
deriving DecidableEq, Repr

/-- /record-draw-result with explicit store-failure behaviour: the
handler body runs inside try/catch, so the first failing await produces
the 500 response and every write awaited before it remains visible. -/
def recordWithFailures (f : StoreFailure) (s : Store) (body : RecordBody) (now : Nat) :
    Response × Store :=
  if !strOptTruthy body.orderNumber || !jsOptTruthy body.drawResult then
    (⟨400, false, "Order number and draw result are required."⟩, s)
  else
    let o := body.orderNumber.getD ""
    let r := body.drawResult.getD .null
    if !f.getOk then (⟨500, false, "store error"⟩, s)
    else
      match lookupDoc s.orderNumbers o with
      | none => (⟨404, false, "Order number does not exist."⟩, s)
      | some d =>
          if d.hasPlayed then (⟨400, false, "You have already used your chance."⟩, s)
          else if !f.updateOk then (⟨500, false, "store error"⟩, s)
          else
            if !f.setOk then
              (⟨500, false, "store error"⟩, ⟨updateOrderDoc s.orderNumbers o r, s.drawResults⟩)
            else
              (⟨200, true, "Draw result recorded successfully."⟩,
               ⟨updateOrderDoc s.orderNumbers o r, setDoc s.drawResults o ⟨o, r, now⟩⟩)

/-- The read phase of record, up to its first await boundary: the
response it would return without writing, or none if the check passes
and the handler proceeds to its writes. -/
def recordCheckResponse (s : Store) (o : String) : Option Response :=
  match lookupDoc s.orderNumbers o with
  | none => some ⟨404, false, "Order number does not exist."⟩
  | some d =>
      if d.hasPlayed then some ⟨400, false, "You have already used your chance."⟩ else none

/-- The write phase of record: both store writes. -/
def recordWritePhase (s : Store) (o : String) (r : JSValue) (now : Nat) : Store :=
  ⟨updateOrderDoc s.orderNumbers o r, setDoc s.drawResults o ⟨o, r, now⟩⟩

/-- Success response of record. -/
def recordSuccessResponse : Response :=
  ⟨200, true, "Draw result recorded successfully."⟩

/-- Two concurrent record calls for the same order number under the
interleaving in which both awaited reads complete before either write
starts — possible because each handler suspends at its awaits while
other requests run.  Returns the two responses and the final store. -/
def recordRace (s : Store) (o : String) (r1 r2 : JSValue) (t1 t2 : Nat) :
    Response × Response × Store :=
  let c1 := recordCheckResponse s o
  let c2 := recordCheckResponse s o
  let s1 := if c1 = none then recordWritePhase s o r1 t1 else s
  let s2 := if c2 = none then recordWritePhase s1 o r2 t2 else s1
  (c1.getD recordSuccessResponse, c2.getD recordSuccessResponse, s2)

/-- The document keys of a collection. -/
def keysOf {α : Type} (l : List (String × α)) : List String := l.map Prod.fst

/-- The store invariant of the spec: for any order number at most one
drawResults document exists with that key, and one exists exactly when
the orderNumbers document with that key has hasPlayed = true. -/
def Store.Inv (s : Store) : Prop :=
  (keysOf s.drawResults).Nodup ∧
  ∀ o : String, (lookupDoc s.drawResults o).isSome ↔
    ∃ d, lookupDoc s.orderNumbers o = some d ∧ d.hasPlayed = true

/-! ### Helper lemmas about the store operations -/

theorem lookupDoc_setDoc {α : Type} (l : List (String × α)) (k : String) (d : α)
    (k2 : String) :
    lookupDoc (setDoc l k d) k2 = if k2 = k then some d else lookupDoc l k2 := by
  by_cases h : k2 = k
  · subst h
    simp [setDoc, lookupDoc]
  · have hk : (k == k2) = false := by
      rw [beq_eq_false_iff_ne]
      exact fun he => h he.symm
    simp only [setDoc, lookupDoc, hk, Bool.false_eq_true, if_false, if_neg h]
    induction l with
    | nil => rfl
    | cons p t ih =>
      obtain ⟨a, b⟩ := p
      by_cases hp : (a == k) = true
      · have hpk2 : (a == k2) = false := by
          rw [beq_eq_false_iff_ne]
          intro he
          exact h (he ▸ beq_iff_eq.1 hp)
        simp [List.filter_cons, hp, lookupDoc, hpk2, ih]
      · have hp2 : (a == k) = false := by rwa [Bool.not_eq_true] at hp
        by_cases hpk2 : (a == k2) = true
        · simp [List.filter_cons, hp2, lookupDoc, hpk2]
        · have hpk3 : (a == k2) = false := by rwa [Bool.not_eq_true] at hpk2
          simp [List.filter_cons, hp2, lookupDoc, hpk3, ih]

theorem lookupDoc_cons_pos {α : Type} (a : String) (b : α) (t : List (String × α))
    (k : String) (hb : (a == k) = true) : lookupDoc ((a, b) :: t) k = some b := by
  simp [lookupDoc, hb]

theorem lookupDoc_cons_neg {α : Type} (a : String) (b : α) (t : List (String × α))
    (k : String) (hb : (a == k) = false) : lookupDoc ((a, b) :: t) k = lookupDoc t k := by
  simp [lookupDoc, hb]

theorem updateOrderDoc_cons_pos (a : String) (b : OrderData) (t : List (String × OrderData))
    (k : String) (r : JSValue) (hb : (a == k) = true) :
    updateOrderDoc ((a, b) :: t) k r =
      (a, { b with hasPlayed := true, drawResult := some r }) :: updateOrderDoc t k r := by
  simp only [updateOrderDoc, List.map_cons, hb, if_true]

theorem updateOrderDoc_cons_neg (a : String) (b : OrderData) (t : List (String × OrderData))
    (k : String) (r : JSValue) (hb : (a == k) = false) :
    updateOrderDoc ((a, b) :: t) k r = (a, b) :: updateOrderDoc t k r := by
  simp only [updateOrderDoc, List.map_cons, hb, Bool.false_eq_true, if_false]

theorem lookupDoc_updateOrderDoc (l : List (String × OrderData)) (k : String) (r : JSValue)
    (k2 : String) :
    lookupDoc (updateOrderDoc l k r) k2 =
      if k2 = k then
        (lookupDoc l k).map (fun d => { d with hasPlayed := true, drawResult := some r })
      else lookupDoc l k2 := by
  induction l with
  | nil => by_cases h : k2 = k <;> simp [updateOrderDoc, lookupDoc, h]
  | cons p t ih =>
    obtain ⟨a, b⟩ := p
    by_cases hb1 : (a == k) = true
    · rw [updateOrderDoc_cons_pos a b t k r hb1]
      by_cases h2 : k2 = k
      · subst h2
        rw [lookupDoc_cons_pos _ _ _ _ hb1, if_pos rfl, lookupDoc_cons_pos _ _ _ _ hb1]
        rfl
      · have hb2 : (a == k2) = false := by
          rw [beq_eq_false_iff_ne]
          intro he
          exact h2 (he ▸ beq_iff_eq.1 hb1)
        rw [lookupDoc_cons_neg _ _ _ _ hb2, ih, if_neg h2, if_neg h2,
            lookupDoc_cons_neg _ _ _ _ hb2]
    · have hb1f : (a == k) = false := by rwa [Bool.not_eq_true] at hb1
      rw [updateOrderDoc_cons_neg a b t k r hb1f]
      by_cases hb2 : (a == k2) = true
      · have h2 : ¬ k2 = k := by
          intro he
          apply hb1
          rw [← he]
          exact hb2
        rw [lookupDoc_cons_pos _ _ _ _ hb2, if_neg h2, lookupDoc_cons_pos _ _ _ _ hb2]
      · have hb2f : (a == k2) = false := by rwa [Bool.not_eq_true] at hb2
        rw [lookupDoc_cons_neg _ _ _ _ hb2f, ih]
        by_cases h2 : k2 = k
        · subst h2
          rw [if_pos rfl, if_pos rfl, lookupDoc_cons_neg _ _ _ _ hb1f]
        · rw [if_neg h2, if_neg h2, lookupDoc_cons_neg _ _ _ _ hb2f]

theorem filter_setDoc_self {α : Type} (l : List (String × α)) (k : String) (d : α) :
    (setDoc l k d).filter (fun p => p.1 == k) = [(k, d)] := by
  simp only [setDoc, List.filter_cons, beq_self_eq_true, if_true]
  rw [List.filter_filter]
  have hff : ∀ p : String × α, ((p.1 == k) && !(p.1 == k)) = false := by
    intro p
    by_cases h : (p.1 == k) = true <;> simp [h]
  calc ((k, d) :: l.filter fun p => (p.1 == k) && !(p.1 == k))
      = (k, d) :: l.filter (fun _ => false) := by
        rw [List.filter_congr (fun p _ => hff p)]
    _ = [(k, d)] := by simp

theorem keysOf_setDoc_nodup {α : Type} (l : List (String × α)) (k : String) (d : α)
    (h : (keysOf l).Nodup) : (keysOf (setDoc l k d)).Nodup := by
  simp only [keysOf, setDoc, List.map_cons, List.nodup_cons]
  constructor
  · intro hmem
    obtain ⟨p, hp, hpk⟩ := List.mem_map.1 hmem
    obtain ⟨hpl, hpne⟩ := List.mem_filter.1 hp
    simp [hpk] at hpne
  · exact ((List.filter_sublist l).map Prod.fst).nodup h

theorem head?_filter_key {α : Type} (l : List (String × α)) (k : String) :
    (l.filter (fun p => p.1 == k)).head? = (lookupDoc l k).map (fun d => (k, d)) := by
  induction l with
  | nil => rfl
  | cons p t ih =>
    obtain ⟨a, b⟩ := p
    by_cases hp : (a == k) = true
    · have ha : a = k := beq_iff_eq.1 hp
      subst ha
      simp [List.filter_cons, hp, lookupDoc]
    · have hpf : (a == k) = false := by rwa [Bool.not_eq_true] at hp
      simp [List.filter_cons, hpf, lookupDoc, ih]

theorem strOptTruthy_some {o : String} (ho : o ≠ "") : strOptTruthy (some o) = true := by
  simp [strOptTruthy, ho]

/-! ### Characterizations of the two handlers on each kind of input -/

theorem checkOrderNumber_missing (s : Store) :
    checkOrderNumber s ⟨none⟩ = ⟨⟨400, false, "Order number is required."⟩, s, []⟩ := rfl

theorem checkOrderNumber_falsy (s : Store) :
    checkOrderNumber s ⟨some ""⟩ = ⟨⟨400, false, "Order number is required."⟩, s, []⟩ := rfl

theorem checkOrderNumber_notFound (s : Store) (o : String) (ho : o ≠ "")
    (hq : queryByOrderNumber s.orderNumbers o = []) :
    checkOrderNumber s ⟨some o⟩ =
      ⟨⟨404, false, "Please input a qualified order number. Contact your sales representative for more information."⟩,
       s, [.queryOrders o]⟩ := by
  simp [checkOrderNumber, strOptTruthy_some ho, hq]

theorem checkOrderNumber_found (s : Store) (o : String) (d : String × OrderData)
    (rest : List (String × OrderData)) (ho : o ≠ "")
    (hq : queryByOrderNumber s.orderNumbers o = d :: rest) :
    checkOrderNumber s ⟨some o⟩ =
      if d.2.hasPlayed then
        ⟨⟨400, false, "You have used your chance."⟩, s, [.queryOrders o]⟩
      else
        ⟨⟨200, true, "Order number is valid. Proceed with the draw."⟩, s, [.queryOrders o]⟩ := by
  by_cases hp : d.2.hasPlayed <;>
    simp [checkOrderNumber, strOptTruthy_some ho, hq, hp]

theorem recordDrawResult_invalid (s : Store) (body : RecordBody) (now : Nat)
    (h : (!strOptTruthy body.orderNumber || !jsOptTruthy body.drawResult) = true) :
    recordDrawResult s body now =
      ⟨⟨400, false, "Order number and draw result are required."⟩, s, []⟩ := by
  simp [recordDrawResult, h]

theorem recordDrawResult_notFound (s : Store) (o : String) (r : JSValue) (now : Nat)
    (ho : o ≠ "") (hr : r.truthy = true) (hnone : lookupDoc s.orderNumbers o = none) :
    recordDrawResult s ⟨some o, some r⟩ now =
      ⟨⟨404, false, "Order number does not exist."⟩, s, [.getOrder o]⟩ := by
  simp [recordDrawResult, strOptTruthy_some ho, jsOptTruthy, hr, hnone]

theorem recordDrawResult_played (s : Store) (o : String) (d : OrderData) (r : JSValue)
    (now : Nat) (ho : o ≠ "") (hr : r.truthy = true)
    (hfind : lookupDoc s.orderNumbers o = some d) (hp : d.hasPlayed = true) :
    recordDrawResult s ⟨some o, some r⟩ now =
      ⟨⟨400, false, "You have already used your chance."⟩, s, [.getOrder o]⟩ := by
  simp [recordDrawResult, strOptTruthy_some ho, jsOptTruthy, hr, hfind, hp]

theorem recordDrawResult_success_eq (s : Store) (o : String) (d : OrderData) (r : JSValue)
    (now : Nat) (ho : o ≠ "") (hr : r.truthy = true)
    (hfind : lookupDoc s.orderNumbers o = some d) (hnp : d.hasPlayed = false) :
    recordDrawResult s ⟨some o, some r⟩ now =
      ⟨recordSuccessResponse,
       ⟨updateOrderDoc s.orderNumbers o r, setDoc s.drawResults o ⟨o, r, now⟩⟩,
       [.getOrder o, .updateOrder o, .setDrawResult o]⟩ := by
  simp [recordDrawResult, recordSuccessResponse, strOptTruthy_some ho, jsOptTruthy, hr,
    hfind, hnp]

theorem queryByOrderNumber_eq_filter_key (l : List (String × OrderData)) (o : String)
    (hwf : ∀ p ∈ l, p.2.orderNumber = p.1) :
    queryByOrderNumber l o = l.filter (fun p => p.1 == o) := by
  apply List.filter_congr
  intro p hp
  rw [hwf p hp]

theorem checkOrderNumber_store_eq (s : Store) (body : CheckBody) :
    (checkOrderNumber s body).store = s := by
  unfold checkOrderNumber
  by_cases h : strOptTruthy body.orderNumber
  · simp only [h, Bool.not_true, Bool.false_eq_true, if_false]
    cases hq : queryByOrderNumber s.orderNumbers (body.orderNumber.getD "") with
    | nil => rfl
    | cons d t => by_cases hp : d.2.hasPlayed <;> simp [hp]
  · simp [h]

theorem checkOrderNumber_of_lookup (s : Store) (o : String) (d : OrderData) (ho : o ≠ "")
    (hwf : ∀ p ∈ s.orderNumbers, p.2.orderNumber = p.1)
    (hfind : lookupDoc s.orderNumbers o = some d) :
    checkOrderNumber s ⟨some o⟩ =
      if d.hasPlayed then
        ⟨⟨400, false, "You have used your chance."⟩, s, [.queryOrders o]⟩
      else
        ⟨⟨200, true, "Order number is valid. Proceed with the draw."⟩, s, [.queryOrders o]⟩ := by
  have hq : queryByOrderNumber s.orderNumbers o = s.orderNumbers.filter (fun p => p.1 == o) :=
    queryByOrderNumber_eq_filter_key _ _ hwf
  have hh : (s.orderNumbers.filter (fun p => p.1 == o)).head? = some (o, d) := by
    rw [head?_filter_key, hfind]
    rfl
  cases hfq : s.orderNumbers.filter (fun p => p.1 == o) with
  | nil =>
    rw [hfq] at hh
    cases hh
  | cons hd tl =>
    rw [hfq] at hh
    simp only [List.head?_cons, Option.some.injEq] at hh
    rw [checkOrderNumber_found s o hd tl ho (by rw [hq, hfq]), hh]

theorem recordDrawResult_store_cases (s : Store) (body : RecordBody) (now : Nat) :
    (recordDrawResult s body now).store = s ∨
    ∃ o r d, lookupDoc s.orderNumbers o = some d ∧
      (recordDrawResult s body now).store =
        ⟨updateOrderDoc s.orderNumbers o r, setDoc s.drawResults o ⟨o, r, now⟩⟩ := by
  by_cases hg : (!strOptTruthy body.orderNumber || !jsOptTruthy body.drawResult) = true
  · left
    rw [recordDrawResult_invalid s body now hg]
  · have hgf : (!strOptTruthy body.orderNumber || !jsOptTruthy body.drawResult) = false := by
      rwa [Bool.not_eq_true] at hg
    cases hfind : lookupDoc s.orderNumbers (body.orderNumber.getD "") with
    | none =>
      left
      simp [recordDrawResult, hgf, hfind]
    | some d =>
      by_cases hp : d.hasPlayed
      · left
        simp [recordDrawResult, hgf, hfind, hp]
      · right
        exact ⟨body.orderNumber.getD "", body.drawResult.getD .null, d, hfind,
          by simp [recordDrawResult, hgf, hfind, hp]⟩

theorem inv_preserved_by_success_write (s : Store) (o : String) (r : JSValue) (now : Nat)
    (d : OrderData) (hfind : lookupDoc s.orderNumbers o = some d) (hInv : s.Inv) :
    Store.Inv ⟨updateOrderDoc s.orderNumbers o r, setDoc s.drawResults o ⟨o, r, now⟩⟩ := by
  obtain ⟨hnd, hiff⟩ := hInv
  refine ⟨keysOf_setDoc_nodup _ _ _ hnd, ?_⟩
  intro k
  by_cases hk : k = o
  · subst hk
    rw [lookupDoc_setDoc, if_pos rfl, lookupDoc_updateOrderDoc, if_pos rfl, hfind]
    constructor
    · intro _
      exact ⟨{ d with hasPlayed := true, drawResult := some r }, rfl, rfl⟩
    · intro _
      rfl
  · rw [lookupDoc_setDoc, if_neg hk, lookupDoc_updateOrderDoc, if_neg hk]
    exact hiff k

/-! ### The claims -/

/-- Claim C1: for every store, order number o present and unplayed, and
non-empty (truthy) draw result r, record(o, r) returns 200 with
success:true, sets the order document's hasPlayed to true and its
drawResult to r, and leaves exactly one drawResults document keyed by o,
holding orderNumber o, drawResult r and the server-assigned timestamp. -/
theorem record_success_postcondition (s : Store) (o : String) (d : OrderData)
    (r : JSValue) (now : Nat) (ho : o ≠ "") (hr : r.truthy = true)
    (hfind : lookupDoc s.orderNumbers o = some d) (hnp : d.hasPlayed = false) :
    (recordDrawResult s ⟨some o, some r⟩ now).response =
      ⟨200, true, "Draw result recorded successfully."⟩ ∧
    lookupDoc (recordDrawResult s ⟨some o, some r⟩ now).store.orderNumbers o =
      some { d with hasPlayed := true, drawResult := some r } ∧
    (recordDrawResult s ⟨some o, some r⟩ now).store.drawResults.filter
      (fun p => p.1 == o) = [(o, ⟨o, r, now⟩)] := by
  rw [recordDrawResult_success_eq s o d r now ho hr hfind hnp]
  refine ⟨rfl, ?_, ?_⟩
  · rw [lookupDoc_updateOrderDoc, if_pos rfl, hfind]
    rfl
  · exact filter_setDoc_self _ _ _

/-- Witness: the record success postcondition at a one-order store. -/
theorem record_success_postcondition_witness :
    (recordDrawResult ⟨[("A100", ⟨"A100", false, none⟩)], []⟩
        ⟨some "A100", some (JSValue.str "PRIZE1")⟩ 5).response =
      ⟨200, true, "Draw result recorded successfully."⟩ ∧
    lookupDoc (recordDrawResult ⟨[("A100", ⟨"A100", false, none⟩)], []⟩
        ⟨some "A100", some (JSValue.str "PRIZE1")⟩ 5).store.orderNumbers "A100" =
      some ⟨"A100", true, some (JSValue.str "PRIZE1")⟩ ∧
    (recordDrawResult ⟨[("A100", ⟨"A100", false, none⟩)], []⟩
        ⟨some "A100", some (JSValue.str "PRIZE1")⟩ 5).store.drawResults.filter
      (fun p => p.1 == "A100") = [("A100", ⟨"A100", JSValue.str "PRIZE1", 5⟩)] :=
  record_success_postcondition ⟨[("A100", ⟨"A100", false, none⟩)], []⟩ "A100"
    ⟨"A100", false, none⟩ (JSValue.str "PRIZE1") 5 (by decide) (by decide) (by decide)
    (by decide)

/-- Claim C8: a missing required field short-circuits both endpoints:
an empty body, or a record body lacking orderNumber or drawResult, gets
HTTP 400 with success:false and an empty store-access trace — no read
and no write. -/
theorem missing_field_no_store_access (s : Store) (now : Nat) (oOpt : Option String)
    (rOpt : Option JSValue) :
    checkOrderNumber s ⟨none⟩ = ⟨⟨400, false, "Order number is required."⟩, s, []⟩ ∧
    recordDrawResult s ⟨none, rOpt⟩ now =
      ⟨⟨400, false, "Order number and draw result are required."⟩, s, []⟩ ∧
    recordDrawResult s ⟨oOpt, none⟩ now =
      ⟨⟨400, false, "Order number and draw result are required."⟩, s, []⟩ := by
  refine ⟨checkOrderNumber_missing s, ?_, ?_⟩
  · exact recordDrawResult_invalid s ⟨none, rOpt⟩ now (by simp [strOptTruthy])
  · exact recordDrawResult_invalid s ⟨oOpt, none⟩ now (by simp [jsOptTruthy])

/-- Claim C10: a present-but-falsy field is rejected like a missing one:
an empty-string orderNumber on either endpoint, and any falsy drawResult
(0, false, the empty string) on record, get 400 with success:false. -/
theorem falsy_field_rejected (s : Store) (now : Nat) (o : String) (rv : JSValue)
    (hrv : rv.truthy = false) :
    checkOrderNumber s ⟨some ""⟩ = ⟨⟨400, false, "Order number is required."⟩, s, []⟩ ∧
    recordDrawResult s ⟨some "", some rv⟩ now =
      ⟨⟨400, false, "Order number and draw result are required."⟩, s, []⟩ ∧
    recordDrawResult s ⟨some o, some rv⟩ now =
      ⟨⟨400, false, "Order number and draw result are required."⟩, s, []⟩ := by
  refine ⟨checkOrderNumber_falsy s, ?_, ?_⟩
  · exact recordDrawResult_invalid _ _ _ (by simp [strOptTruthy])
  · exact recordDrawResult_invalid _ _ _ (by simp [jsOptTruthy, hrv])

/-- Witness: 0 as drawResult and "" as orderNumber are both rejected. -/
theorem falsy_field_rejected_witness :
    checkOrderNumber ⟨[], []⟩ ⟨some ""⟩ =
      ⟨⟨400, false, "Order number is required."⟩, ⟨[], []⟩, []⟩ ∧
    recordDrawResult ⟨[], []⟩ ⟨some "", some (JSValue.num 0)⟩ 0 =
      ⟨⟨400, false, "Order number and draw result are required."⟩, ⟨[], []⟩, []⟩ ∧
    recordDrawResult ⟨[], []⟩ ⟨some "A100", some (JSValue.num 0)⟩ 0 =
      ⟨⟨400, false, "Order number and draw result are required."⟩, ⟨[], []⟩, []⟩ :=
  falsy_field_rejected ⟨[], []⟩ 0 "A100" (JSValue.num 0) (by decide)

/-- Claim C7: validate on a present, unplayed order number returns 200
with success:true, the store is unchanged in its entirety, and the only
store access is the read query — no write. -/
theorem validate_unplayed_no_side_effect (s : Store) (o : String) (d : OrderData)
    (ho : o ≠ "") (hwf : ∀ p ∈ s.orderNumbers, p.2.orderNumber = p.1)
    (hfind : lookupDoc s.orderNumbers o = some d) (hnp : d.hasPlayed = false) :
    checkOrderNumber s ⟨some o⟩ =
      ⟨⟨200, true, "Order number is valid. Proceed with the draw."⟩, s,
       [.queryOrders o]⟩ := by
  rw [checkOrderNumber_of_lookup s o d ho hwf hfind, hnp]
  rfl

/-- Witness: validating an unplayed order at a one-order store. -/
theorem validate_unplayed_no_side_effect_witness :
    checkOrderNumber ⟨[("A100", ⟨"A100", false, none⟩)], []⟩ ⟨some "A100"⟩ =
      ⟨⟨200, true, "Order number is valid. Proceed with the draw."⟩,
       ⟨[("A100", ⟨"A100", false, none⟩)], []⟩, [.queryOrders "A100"]⟩ :=
  validate_unplayed_no_side_effect ⟨[("A100", ⟨"A100", false, none⟩)], []⟩ "A100"
    ⟨"A100", false, none⟩ (by decide) (by decide) (by decide) (by decide)

/-- Claim C9: when the field query of validate returns documents, only
the first is inspected: the response is decided by its hasPlayed flag
alone, whatever the rest of the matches contain. -/
theorem validate_uses_first_match_only (s : Store) (o : String) (d : String × OrderData)
    (rest : List (String × OrderData)) (ho : o ≠ "")
    (hq : queryByOrderNumber s.orderNumbers o = d :: rest) :
    checkOrderNumber s ⟨some o⟩ =
      if d.2.hasPlayed then
        ⟨⟨400, false, "You have used your chance."⟩, s, [.queryOrders o]⟩
      else
        ⟨⟨200, true, "Order number is valid. Proceed with the draw."⟩, s,
         [.queryOrders o]⟩ :=
  checkOrderNumber_found s o d rest ho hq

/-- Witness: two documents share the orderNumber field value "A"; the
first is unplayed, so validate succeeds although the second has played. -/
theorem validate_uses_first_match_only_witness :
    checkOrderNumber ⟨[("k1", ⟨"A", false, none⟩), ("k2", ⟨"A", true, none⟩)], []⟩
        ⟨some "A"⟩ =
      if (("k1", (⟨"A", false, none⟩ : OrderData)) : String × OrderData).2.hasPlayed then
        ⟨⟨400, false, "You have used your chance."⟩,
         ⟨[("k1", ⟨"A", false, none⟩), ("k2", ⟨"A", true, none⟩)], []⟩,
         [.queryOrders "A"]⟩
      else
        ⟨⟨200, true, "Order number is valid. Proceed with the draw."⟩,
         ⟨[("k1", ⟨"A", false, none⟩), ("k2", ⟨"A", true, none⟩)], []⟩,
         [.queryOrders "A"]⟩ :=
  validate_uses_first_match_only
    ⟨[("k1", ⟨"A", false, none⟩), ("k2", ⟨"A", true, none⟩)], []⟩ "A"
    ("k1", ⟨"A", false, none⟩) [("k2", ⟨"A", true, none⟩)] (by decide) (by decide)

/-- Claim C6: an already-played order number is rejected by both
endpoints with HTTP 400 and success:false; record leaves the store
unchanged and its only access is the read. -/
theorem already_played_rejected (s : Store) (o : String) (d : OrderData) (r : JSValue)
    (now : Nat) (ho : o ≠ "") (hr : r.truthy = true)
    (hwf : ∀ p ∈ s.orderNumbers, p.2.orderNumber = p.1)
    (hfind : lookupDoc s.orderNumbers o = some d) (hp : d.hasPlayed = true) :
    checkOrderNumber s ⟨some o⟩ =
      ⟨⟨400, false, "You have used your chance."⟩, s, [.queryOrders o]⟩ ∧
    recordDrawResult s ⟨some o, some r⟩ now =
      ⟨⟨400, false, "You have already used your chance."⟩, s, [.getOrder o]⟩ := by
  constructor
  · rw [checkOrderNumber_of_lookup s o d ho hwf hfind, hp]
    rfl
  · exact recordDrawResult_played s o d r now ho hr hfind hp

/-- Witness: both endpoints reject a played order at a one-order store. -/
theorem already_played_rejected_witness :
    checkOrderNumber ⟨[("A100", ⟨"A100", true, some (JSValue.str "P")⟩)], []⟩
        ⟨some "A100"⟩ =
      ⟨⟨400, false, "You have used your chance."⟩,
       ⟨[("A100", ⟨"A100", true, some (JSValue.str "P")⟩)], []⟩,
       [.queryOrders "A100"]⟩ ∧
    recordDrawResult ⟨[("A100", ⟨"A100", true, some (JSValue.str "P")⟩)], []⟩
        ⟨some "A100", some (JSValue.str "Q")⟩ 7 =
      ⟨⟨400, false, "You have already used your chance."⟩,
       ⟨[("A100", ⟨"A100", true, some (JSValue.str "P")⟩)], []⟩,
       [.getOrder "A100"]⟩ :=
  already_played_rejected ⟨[("A100", ⟨"A100", true, some (JSValue.str "P")⟩)], []⟩
    "A100" ⟨"A100", true, some (JSValue.str "P")⟩ (JSValue.str "Q") 7 (by decide)
    (by decide) (by decide) (by decide) (by decide)

/-- Claim C5: validate locates the order by a field-equality query while
record addresses the document by key; when every stored document's
orderNumber field equals its document key, the two schemes agree on
existence — validate answers 404 exactly when record would. -/
theorem lookup_schemes_agree (s : Store) (o : String) (r : JSValue) (now : Nat)
    (ho : o ≠ "") (hr : r.truthy = true)
    (hwf : ∀ p ∈ s.orderNumbers, p.2.orderNumber = p.1) :
    ((checkOrderNumber s ⟨some o⟩).response.status = 404 ↔
      (recordDrawResult s ⟨some o, some r⟩ now).response.status = 404) := by
  cases hfind : lookupDoc s.orderNumbers o with
  | none =>
    have hq : queryByOrderNumber s.orderNumbers o = [] := by
      rw [queryByOrderNumber_eq_filter_key _ _ hwf]
      have hh := head?_filter_key s.orderNumbers o
      rw [hfind] at hh
      cases hl : s.orderNumbers.filter (fun p => p.1 == o) with
      | nil => rfl
      | cons a t =>
        rw [hl] at hh
        simp at hh
    rw [checkOrderNumber_notFound s o ho hq,
      recordDrawResult_notFound s o r now ho hr hfind]
  | some d =>
    have hc := checkOrderNumber_of_lookup s o d ho hwf hfind
    by_cases hp : d.hasPlayed = true
    · rw [recordDrawResult_played s o d r now ho hr hfind hp, hc, hp]
      simp
    · have hnp : d.hasPlayed = false := by rwa [Bool.not_eq_true] at hp
      rw [recordDrawResult_success_eq s o d r now ho hr hfind hnp, hc, hnp]
      simp [recordSuccessResponse]

/-- Witness: on an empty store both lookups miss, and both endpoints
answer 404. -/
theorem lookup_schemes_agree_witness :
    ((checkOrderNumber ⟨[], []⟩ ⟨some "A100"⟩).response.status = 404 ↔
      (recordDrawResult ⟨[], []⟩ ⟨some "A100", some (JSValue.str "P")⟩ 3).response.status
        = 404) :=
  lookup_schemes_agree ⟨[], []⟩ "A100" (JSValue.str "P") 3 (by decide) (by decide)
    (by decide)

/-- Claim C2: the store invariant — at most one drawResults document per
order number, present exactly when the order document has hasPlayed =
true — is preserved by every operation of the service, whatever the
request body. -/
theorem handlers_preserve_invariant (s : Store) (cbody : CheckBody) (rbody : RecordBody)
    (now : Nat) (hInv : s.Inv) :
    ((checkOrderNumber s cbody).store).Inv ∧
    ((recordDrawResult s rbody now).store).Inv := by
  constructor
  · rw [checkOrderNumber_store_eq]
    exact hInv
  · rcases recordDrawResult_store_cases s rbody now with h | ⟨o, r, d, hfind, h⟩
    · rw [h]
      exact hInv
    · rw [h]
      exact inv_preserved_by_success_write s o r now d hfind hInv

/-- Witness: the invariant is preserved starting from the empty store. -/
theorem handlers_preserve_invariant_witness :
    ((checkOrderNumber ⟨[], []⟩ ⟨some "A100"⟩).store).Inv ∧
    ((recordDrawResult ⟨[], []⟩ ⟨some "A100", some (JSValue.str "P")⟩ 1).store).Inv :=
  handlers_preserve_invariant ⟨[], []⟩ ⟨some "A100"⟩ ⟨some "A100", some (JSValue.str "P")⟩
    1 ⟨List.nodup_nil, fun o => by simp [lookupDoc]⟩

/-- Claim C3 is false as stated: the two writes of record are sequential
awaits, not an atomic pair.  At a one-order store, when the drawResults
write fails after the order update succeeded, the handler answers 500
yet the first write stays visible: the order is marked played with the
drawResult stored, while no drawResults document exists. -/
theorem record_writes_not_atomic :
    (recordWithFailures ⟨true, true, false⟩ ⟨[("A100", ⟨"A100", false, none⟩)], []⟩
        ⟨some "A100", some (JSValue.str "P")⟩ 5).1.status = 500 ∧
    (recordWithFailures ⟨true, true, false⟩ ⟨[("A100", ⟨"A100", false, none⟩)], []⟩
        ⟨some "A100", some (JSValue.str "P")⟩ 5).2 ≠
      (⟨[("A100", ⟨"A100", false, none⟩)], []⟩ : Store) ∧
    lookupDoc (recordWithFailures ⟨true, true, false⟩
        ⟨[("A100", ⟨"A100", false, none⟩)], []⟩
        ⟨some "A100", some (JSValue.str "P")⟩ 5).2.orderNumbers "A100" =
      some ⟨"A100", true, some (JSValue.str "P")⟩ ∧
    lookupDoc (recordWithFailures ⟨true, true, false⟩
        ⟨[("A100", ⟨"A100", false, none⟩)], []⟩
        ⟨some "A100", some (JSValue.str "P")⟩ 5).2.drawResults "A100" = none := by
  decide

/-- Claim C3 amended: the writes are performed in sequence.  Success
(200) is returned only in the run where both writes completed; failure
before or at the first write leaves the store unchanged; but failure of
the drawResults write after the order update leaves that update visible
while 500 is returned. -/
theorem record_failure_semantics (s : Store) (o : String) (d : OrderData) (r : JSValue)
    (now : Nat) (u v : Bool) (ho : o ≠ "") (hr : r.truthy = true)
    (hfind : lookupDoc s.orderNumbers o = some d) (hnp : d.hasPlayed = false) :
    recordWithFailures ⟨true, true, true⟩ s ⟨some o, some r⟩ now =
      (recordSuccessResponse,
       ⟨updateOrderDoc s.orderNumbers o r, setDoc s.drawResults o ⟨o, r, now⟩⟩) ∧
    recordWithFailures ⟨false, u, v⟩ s ⟨some o, some r⟩ now =
      (⟨500, false, "store error"⟩, s) ∧
    recordWithFailures ⟨true, false, v⟩ s ⟨some o, some r⟩ now =
      (⟨500, false, "store error"⟩, s) ∧
    recordWithFailures ⟨true, true, false⟩ s ⟨some o, some r⟩ now =
      (⟨500, false, "store error"⟩, ⟨updateOrderDoc s.orderNumbers o r, s.drawResults⟩) := by
  refine ⟨?_, ?_, ?_, ?_⟩ <;>
    simp [recordWithFailures, recordSuccessResponse, strOptTruthy_some ho, jsOptTruthy,
      hr, hfind, hnp]

/-- Witness: the four failure shapes at a one-order store. -/
theorem record_failure_semantics_witness :
    recordWithFailures ⟨true, true, true⟩ ⟨[("B2", ⟨"B2", false, none⟩)], []⟩
        ⟨some "B2", some (JSValue.str "W")⟩ 9 =
      (recordSuccessResponse,
       ⟨updateOrderDoc [("B2", ⟨"B2", false, none⟩)] "B2" (JSValue.str "W"),
        setDoc [] "B2" ⟨"B2", JSValue.str "W", 9⟩⟩) ∧
    recordWithFailures ⟨false, true, true⟩ ⟨[("B2", ⟨"B2", false, none⟩)], []⟩
        ⟨some "B2", some (JSValue.str "W")⟩ 9 =
      (⟨500, false, "store error"⟩, ⟨[("B2", ⟨"B2", false, none⟩)], []⟩) ∧
    recordWithFailures ⟨true, false, true⟩ ⟨[("B2", ⟨"B2", false, none⟩)], []⟩
        ⟨some "B2", some (JSValue.str "W")⟩ 9 =
      (⟨500, false, "store error"⟩, ⟨[("B2", ⟨"B2", false, none⟩)], []⟩) ∧
    recordWithFailures ⟨true, true, false⟩ ⟨[("B2", ⟨"B2", false, none⟩)], []⟩
        ⟨some "B2", some (JSValue.str "W")⟩ 9 =
      (⟨500, false, "store error"⟩,
       ⟨updateOrderDoc [("B2", ⟨"B2", false, none⟩)] "B2" (JSValue.str "W"), []⟩) :=
  record_failure_semantics ⟨[("B2", ⟨"B2", false, none⟩)], []⟩ "B2" ⟨"B2", false, none⟩
    (JSValue.str "W") 9 true true (by decide) (by decide) (by decide) (by decide)

/-- Claim C4 is false as stated: the check-then-write of record is not
guarded, so under the concurrent interleaving in which both reads
complete before either write, both calls for the same order number
answer 200 success — the second is not AlreadyUsed. -/
theorem record_race_double_success :
    (recordRace ⟨[("A100", ⟨"A100", false, none⟩)], []⟩ "A100"
        (JSValue.str "P1") (JSValue.str "P2") 1 2).1 = recordSuccessResponse ∧
    (recordRace ⟨[("A100", ⟨"A100", false, none⟩)], []⟩ "A100"
        (JSValue.str "P1") (JSValue.str "P2") 1 2).2.1 = recordSuccessResponse := by
  decide

/-- Claim C4 amended: when the two calls run sequentially — the first
completes before the second begins — the first answers 200 success and
every later call answers AlreadyUsed (400) and leaves the store exactly
as it was, so all subsequent calls keep answering AlreadyUsed. -/
theorem record_sequential_idempotent (s : Store) (o : String) (d : OrderData)
    (r1 r2 : JSValue) (t1 t2 : Nat) (ho : o ≠ "") (h1 : r1.truthy = true)
    (h2 : r2.truthy = true) (hfind : lookupDoc s.orderNumbers o = some d)
    (hnp : d.hasPlayed = false) :
    (recordDrawResult s ⟨some o, some r1⟩ t1).response = recordSuccessResponse ∧
    recordDrawResult (recordDrawResult s ⟨some o, some r1⟩ t1).store
        ⟨some o, some r2⟩ t2 =
      ⟨⟨400, false, "You have already used your chance."⟩,
       (recordDrawResult s ⟨some o, some r1⟩ t1).store, [.getOrder o]⟩ := by
  have h1e := recordDrawResult_success_eq s o d r1 t1 ho h1 hfind hnp
  constructor
  · rw [h1e]
  · rw [h1e]
    apply recordDrawResult_played _ o { d with hasPlayed := true, drawResult := some r1 }
      r2 t2 ho h2
    · rw [lookupDoc_updateOrderDoc, if_pos rfl, hfind]
      rfl
    · rfl

/-- Witness: sequential double redemption at a one-order store. -/
theorem record_sequential_idempotent_witness :
    (recordDrawResult ⟨[("A100", ⟨"A100", false, none⟩)], []⟩
        ⟨some "A100", some (JSValue.str "P1")⟩ 1).response = recordSuccessResponse ∧
    recordDrawResult
        (recordDrawResult ⟨[("A100", ⟨"A100", false, none⟩)], []⟩
          ⟨some "A100", some (JSValue.str "P1")⟩ 1).store
        ⟨some "A100", some (JSValue.str "P2")⟩ 2 =
      ⟨⟨400, false, "You have already used your chance."⟩,
       (recordDrawResult ⟨[("A100", ⟨"A100", false, none⟩)], []⟩
         ⟨some "A100", some (JSValue.str "P1")⟩ 1).store, [.getOrder "A100"]⟩ :=
  record_sequential_idempotent ⟨[("A100", ⟨"A100", false, none⟩)], []⟩ "A100"
    ⟨"A100", false, none⟩ (JSValue.str "P1") (JSValue.str "P2") 1 2 (by decide)
    (by decide) (by decide) (by decide) (by decide)

end LuckyDraw
